import Mathlib

set_option maxRecDepth 4000

namespace QuadstateRenewals

/-! Shallow embedding of src/QuadstateRenewals.py: the loader
(read_excel_file, open_protected_excel), the column validator
(check_required_columns), the transform steps of process_excel
(rename, column selection, workflow-column append, sort), and the
exporter (export_to_excel).  Cells are modelled by an inductive type
holding either a numeric value (dates and amounts, a date being its
ordinal) or a string.  A DataFrame is a column-name list plus a list
of rows, each row a list of cells aligned with the column names. -/

inductive Cell where
  | num (n : Nat)
  | str (s : String)
deriving DecidableEq, Repr

structure DataFrame where
  cols : List String
  rows : List (List Cell)
deriving DecidableEq, Repr

/-- Total list update; out-of-range indices leave the list unchanged
(the embedding only ever updates in-range positions). -/
def setL {α : Type} : List α → Nat → α → List α
  | [], _, _ => []
  | _ :: xs, 0, v => v :: xs
  | x :: xs, i + 1, v => x :: setL xs i v

/-- Read with default 0, for index lists. -/
def getN (t : List Nat) (i : Nat) : Nat := t.getD i 0

def setN (t : List Nat) (i : Nat) (v : Nat) : List Nat := setL t i v

def swapN (t : List Nat) (i j : Nat) : List Nat :=
  setN (setN t i (getN t j)) j (getN t i)

/-- Every entry of an index list is below n. -/
def Bnd (n : Nat) (t : List Nat) : Prop := ∀ x ∈ t, x < n

/-! Embedding of the argsort used by pandas DataFrame.sort_values at
src/QuadstateRenewals.py line 340.  For a single sort key and the
default kind (quicksort), pandas calls numpy argsort, which runs an
introsort over the index array: median-of-three pivot, Hoare
partition, a depth limit of twice the most significant bit position
with a heapsort fallback, and insertion sort for segments of at most
16 elements (SMALL_QUICKSORT = 15).  The numpy documentation states
this kind is not stable.  The functions below transcribe that
algorithm over a key list v and an index list t; fuel arguments make
the loops structurally recursive and are always supplied large enough
to be inexhaustible. -/

def SMALL_QUICKSORT : Nat := 15

/-- The do-increment-while scan of the Hoare partition: advance i and
keep advancing while the key at the index stored there is below the
pivot key. -/
def scanUp (v t : List Nat) (vp : Nat) : Nat → Nat → Nat
  | 0, i => i + 1
  | fuel + 1, i =>
    if getN v (getN t (i + 1)) < vp then scanUp v t vp fuel (i + 1) else i + 1

/-- The do-decrement-while scan of the Hoare partition. -/
def scanDown (v t : List Nat) (vp : Nat) : Nat → Nat → Nat
  | 0, j => j - 1
  | fuel + 1, j =>
    if vp < getN v (getN t (j - 1)) then scanDown v t vp fuel (j - 1) else j - 1

/-- The inner exchange loop of the Hoare partition; returns the final
index list and the crossing position. -/
def partLoopF (v : List Nat) (vp : Nat) : Nat → List Nat → Nat → Nat → List Nat × Nat
  | 0, t, i, _ => (t, i)
  | fuel + 1, t, i, j =>
    let i1 := scanUp v t vp (t.length + 2) i
    let j1 := scanDown v t vp (t.length + 2) j
    if j1 ≤ i1 then (t, i1)
    else partLoopF v vp fuel (swapN t i1 j1) i1 j1

/-- One comparison-and-swap of the median-of-three pivot selection:
swap the indices at positions a and b when the key at a is below the
key at b. -/
def med3Step (v t : List Nat) (a b : Nat) : List Nat :=
  if getN v (getN t a) < getN v (getN t b) then swapN t a b else t

/-- One quicksort partition of the segment pl..pr: median-of-three of
the keys at pl, midpoint and pr, pivot parked at pr - 1, Hoare scans,
final swap placing the pivot index at the crossing position. -/
def partitionSeg (v t0 : List Nat) (pl pr : Nat) : List Nat × Nat :=
  let pm := pl + (pr - pl) / 2
  let t1 := med3Step v t0 pm pl
  let t2 := med3Step v t1 pr pm
  let t3 := med3Step v t2 pm pl
  let vp := getN v (getN t3 pm)
  let t4 := swapN t3 pm (pr - 1)
  let p := partLoopF v vp (pr + 2) t4 pl (pr - 1)
  (swapN p.1 p.2 (pr - 1), p.2)

/-- The shifting loop of the insertion sort on indices. -/
def insShift (v : List Nat) (vp pl : Nat) : Nat → List Nat → Nat → List Nat × Nat
  | 0, t, j => (t, j)
  | fuel + 1, t, j =>
    if pl < j ∧ vp < getN v (getN t (j - 1)) then
      insShift v vp pl fuel (setN t j (getN t (j - 1))) (j - 1)
    else (t, j)

/-- Insertion sort of the index segment pl..pr by key, as numpy runs
it on segments of at most 16 elements; pi scans from pl + 1 to pr. -/
def insertionSeg (v : List Nat) (pl pr : Nat) : Nat → List Nat → Nat → List Nat
  | 0, t, _ => t
  | fuel + 1, t, pi =>
    if pi ≤ pr then
      let vi := getN t pi
      let vp := getN v vi
      let p := insShift v vp pl (t.length + 2) t pi
      insertionSeg v pl pr fuel (setN p.1 p.2 vi) (pi + 1)
    else t

/-- One-based heap index into the segment starting at pl. -/
def hIdx (pl k : Nat) : Nat := pl + k - 1

/-- The sift-down loop shared by heap construction and extraction in
the numpy argsort heapsort fallback. -/
def siftLoop (v : List Nat) (pl n tmp : Nat) : Nat → List Nat → Nat → Nat → List Nat × Nat
  | 0, t, i, _ => (t, i)
  | fuel + 1, t, i, j =>
    if j ≤ n then
      let j1 := if j < n ∧ getN v (getN t (hIdx pl j)) < getN v (getN t (hIdx pl (j + 1))) then j + 1 else j
      if getN v tmp < getN v (getN t (hIdx pl j1)) then
        siftLoop v pl n tmp fuel (setN t (hIdx pl i) (getN t (hIdx pl j1))) j1 (j1 + j1)
      else (t, i)
    else (t, i)

/-- Heap construction pass of the heapsort fallback, l descending from
n / 2 to 1. -/
def heapBuild (v : List Nat) (pl n : Nat) : Nat → List Nat → Nat → List Nat
  | 0, t, _ => t
  | fuel + 1, t, l =>
    if 0 < l then
      let tmp := getN t (hIdx pl l)
      let p := siftLoop v pl n tmp (n + 2) t l (l + l)
      heapBuild v pl n fuel (setN p.1 (hIdx pl p.2) tmp) (l - 1)
    else t

/-- Extraction pass of the heapsort fallback, n descending to 2. -/
def heapExtract (v : List Nat) (pl : Nat) : Nat → List Nat → Nat → List Nat
  | 0, t, _ => t
  | fuel + 1, t, n =>
    if 1 < n then
      let tmp := getN t (hIdx pl n)
      let t1 := setN t (hIdx pl n) (getN t (hIdx pl 1))
      let p := siftLoop v pl (n - 1) tmp (n + 2) t1 1 2
      heapExtract v pl fuel (setN p.1 (hIdx pl p.2) tmp) (n - 1)
    else t

/-- Heapsort of the index segment of length n starting at pl, the
depth-limit fallback of the numpy argsort introsort. -/
def aheapsortSeg (v t : List Nat) (pl n : Nat) : List Nat :=
  heapExtract v pl (n + 1) (heapBuild v pl n (n + 1) t (n / 2)) n

/-- Main introsort recursion.  A popped or initial segment (check set)
first tests the depth budget and falls back to heapsort when it is
exhausted; a segment longer than SMALL_QUICKSORT + 1 is partitioned,
the smaller side continued immediately without a fresh depth test and
the larger side processed as a popped segment, both with the budget
decremented; short segments are insertion sorted.  The two sides of a
partition are disjoint index ranges, so processing them in this order
computes the same index list as the explicit stack in numpy. -/
def aqsRun (v : List Nat) : Nat → Bool → List Nat → Nat → Nat → Int → List Nat
  | 0, _, t, _, _, _ => t
  | fuel + 1, check, t, pl, pr, cdepth =>
    if check = true ∧ cdepth < 0 then
      aheapsortSeg v t pl (pr + 1 - pl)
    else if SMALL_QUICKSORT < pr - pl then
      let p := partitionSeg v t pl pr
      if p.2 - pl < pr - p.2 then
        let t2 := aqsRun v fuel false p.1 pl (p.2 - 1) (cdepth - 1)
        aqsRun v fuel true t2 (p.2 + 1) pr (cdepth - 1)
      else
        let t2 := aqsRun v fuel false p.1 (p.2 + 1) pr (cdepth - 1)
        aqsRun v fuel true t2 pl (p.2 - 1) (cdepth - 1)
    else
      insertionSeg v pl pr (pr + 2 - pl) t (pl + 1)

/-- Fuelled base-two logarithm, the position of the most significant
bit; structurally recursive so that concrete runs reduce. -/
def log2F : Nat → Nat → Nat
  | 0, _ => 0
  | f + 1, n => if 2 ≤ n then log2F f (n / 2) + 1 else 0

def npyGetMsb (n : Nat) : Nat := log2F n n

/-- The argsort of a key list: the index permutation numpy computes
for pandas sort_values with the default kind.  The initial depth
budget is twice the most significant bit position of the length. -/
def aargsort (keys : List Nat) : List Nat :=
  if keys.length = 0 then []
  else aqsRun keys (keys.length + 16) true (List.range keys.length) 0 (keys.length - 1)
    (2 * (Int.ofNat (npyGetMsb keys.length)))

/-! The validator and the transform steps of process_excel. -/

/-- Source lines 161-168: check_required_columns computes the list of
required columns absent from the frame, logs it, and returns False
when it is nonempty, True otherwise.  The reported missing list is
exposed here as the second component of the result, modelling the
logging.error output of line 165; the source returns the boolean
alone. -/
def check_required_columns (df : DataFrame) (required_columns : List String) : Bool × List String :=
  let missing_columns := required_columns.filter (fun col => !(df.cols.contains col))
  (missing_columns.isEmpty, missing_columns)

/-- Source line 308: the required input columns of process_excel. -/
def requiredColumns : List String :=
  ["Expiration Date", "Insured", "Carrier", "Lines Of Business", "Status",
   "Premium", "Renewal Premium", "Percentage Change"]

/-- Source lines 323-324: the selected canonical column order. -/
def canonicalColumns : List String :=
  ["Expiration Date", "Insured Name", "Carrier", "Lines Of Business", "Status",
   "Premium", "Renewal Premium", "Percentage Change"]

/-- Source lines 325-328: the appended workflow columns, in order. -/
def workflowColumns : List String :=
  ["State", "Contacted VIA", "Notes Filed", "Completed By"]

/-- Source line 322: rename the column Insured to Insured Name; cell
values are untouched. -/
def renameInsured (df : DataFrame) : DataFrame :=
  { cols := df.cols.map (fun c => if c = "Insured" then "Insured Name" else c),
    rows := df.rows }

/-- Position of a column label, none when absent (pandas get_loc
raises a KeyError in that case). -/
def colIdx (df : DataFrame) (c : String) : Option Nat :=
  df.cols.findIdx? (fun x => x == c)

/-- Source lines 323-324: column selection df[[names]]; pandas raises
a KeyError when a requested label is absent, modelled by none. -/
def selectCols (df : DataFrame) (names : List String) : Option DataFrame :=
  if names.all (fun c => df.cols.contains c) then
    some { cols := names,
           rows := df.rows.map (fun r => names.map (fun c => r.getD (df.cols.indexOf c) (Cell.str ""))) }
  else none

/-- Source lines 325-328: assignment of a constant to a column;
appends a new column when the label is absent, overwrites the column
when it is present. -/
def addCol (df : DataFrame) (name : String) (v : Cell) : DataFrame :=
  if df.cols.contains name then
    { cols := df.cols, rows := df.rows.map (fun r => setL r (df.cols.indexOf name) v) }
  else
    { cols := df.cols ++ [name], rows := df.rows.map (fun r => r ++ [v]) }

/-- Sort key of a cell: numeric cells (the dates of the Expiration
Date column, a date being its ordinal) compare by value; the canonical
inputs carry only numeric cells in the sort column. -/
def cellKey : Cell → Nat
  | Cell.num n => n
  | Cell.str _ => 0

/-- Source line 340: df.sort_values(by, inplace=True) with the default
kind, quicksort: rows are taken in the order of the numpy argsort of
the key column. -/
def sortByCol (df : DataFrame) (c : String) : Option DataFrame :=
  match colIdx df c with
  | none => none
  | some j =>
    let keys := df.rows.map (fun r => cellKey (r.getD j (Cell.str "")))
    some { cols := df.cols, rows := (aargsort keys).map (fun i => df.rows.getD i []) }

/-- Source lines 321-340: the transform stage of process_excel after
validation: rename Insured, select the canonical columns, append the
four empty workflow columns, sort by Expiration Date. -/
def transform (df : DataFrame) : Option DataFrame :=
  match selectCols (renameInsured df) canonicalColumns with
  | none => none
  | some df2 =>
    let df3 :=
      addCol (addCol (addCol (addCol df2 "State" (Cell.str ""))
        "Contacted VIA" (Cell.str "")) "Notes Filed" (Cell.str "")) "Completed By" (Cell.str "")
    sortByCol df3 "Expiration Date"

/-- Source line 330. -/
def stateDropdown : List String :=
  ["Renewal Complete", "Nowcerts Complete", "Needs Rewritten", "Rewritten",
   "Contact Attempted", "Try Bundling", "Already Rewritten", "Best Option",
   "Non Renewing", "Canceled"]

/-- Source line 331. -/
def contactedViaDropdown : List String :=
  ["Left VM", "Sent Text", "Sent Email", "Spoken with"]

/-- Source line 332. -/
def notesDropdown : List String := ["Yes", "Call Filed in AMS"]

/-- Source line 333. -/
def completedByDropdown : List String :=
  ["Danielle Stevens", "Amber Miller", "Teresa Morrisette", "Lane Ross"]

/-! The exporter. -/

/-- Observable content of the written workbook: the header row, the
data rows, the dropdown validations attached to column positions, and
the value the export call returns. -/
structure Workbook where
  headers : List String
  dataRows : List (List Cell)
  validations : List (Nat × List String)
  ret : Bool
deriving DecidableEq, Repr

/-- Source lines 170-256: export_to_excel writes the frame and the
dropdown validations, then returns True unconditionally (line 256);
its only failure mode is an exception, modelled by the error case:
the get_loc calls of lines 180-192 raise a KeyError when a workflow
column is absent.  Cell styling (widths, colors, shading) has no
bearing on any claim and is not modelled. -/
def export_to_excel (df : DataFrame) (sDD cDD nDD dDD : List String) : Except String Workbook :=
  match colIdx df "State", colIdx df "Contacted VIA", colIdx df "Notes Filed", colIdx df "Completed By" with
  | some si, some ci, some ni, some di =>
    Except.ok { headers := df.cols, dataRows := df.rows,
                validations := [(si, sDD), (ci, cDD), (ni, nDD), (di, dDD)],
                ret := true }
  | _, _, _, _ => Except.error "KeyError"

/-! The loader. -/

/-- Environment of one loader call: whether the input file is on
disk, whether it is passphrase-protected and by which passphrase,
whether its container format is readable, whether the msoffcrypto
library is importable, and the table it holds. -/
structure FileEnv where
  present : Bool
  encrypted : Bool
  goodPassword : String
  formatOk : Bool
  msoffcryptoInstalled : Bool
  content : DataFrame
deriving DecidableEq, Repr

/-- Outcome of one loader call: the value returned to the caller, the
cause strings written by logging.error, whether each decryption
mechanism was entered, and the temporary-file state. -/
structure LoadResult where
  result : Option DataFrame
  errorLog : List String
  msoffcryptoAttempted : Bool
  comAttempted : Bool
  tempCreated : Bool
  tempLeft : Bool
deriving DecidableEq, Repr

/-- Source lines 118-121: the direct pandas read succeeds exactly when
the file is on disk, its format is readable and it is not
passphrase-protected. -/
def directReadOk (env : FileEnv) : Bool :=
  env.present && env.formatOk && !env.encrypted

/-- Source lines 62-113: the Excel automation bridge; returns True
when the workbook opens (with the passphrase when one is supplied,
retrying without one on failure) and is re-saved unprotected, False on
any failure.  This function has no caller anywhere in the source. -/
def open_protected_excel (env : FileEnv) (password : Option String) : Bool :=
  if !env.present || !env.formatOk then false
  else
    match password with
    | some pw => if env.encrypted then pw == env.goodPassword else true
    | none => !env.encrypted

/-- Source lines 115-159: read_excel_file.  Without a passphrase the
direct read is tried first (lines 119-125).  Otherwise the msoffcrypto
path of lines 131-151 runs: a failed import returns None (line 148),
opening a missing file raises, loading the key fails on a wrong
passphrase or an unencrypted or corrupt container, decryption writes a
temporary file which is then read; every raised error is caught and
logged with a cause string and None is returned (lines 149-151), and
the finally block of lines 152-159 removes the temporary file on every
exit path.  The automation bridge is never invoked. -/
def read_excel_file (env : FileEnv) (password : Option String) : LoadResult :=
  if password.isNone && directReadOk env then
    { result := some env.content, errorLog := [], msoffcryptoAttempted := false,
      comAttempted := false, tempCreated := false, tempLeft := false }
  else if !env.msoffcryptoInstalled then
    { result := none,
      errorLog := ["msoffcrypto-tool not available. Please install it with: pip install msoffcrypto-tool"],
      msoffcryptoAttempted := true, comAttempted := false, tempCreated := false, tempLeft := false }
  else if !env.present then
    { result := none, errorLog := ["msoffcrypto-tool method failed: FileNotFoundError"],
      msoffcryptoAttempted := true, comAttempted := false, tempCreated := false, tempLeft := false }
  else if !env.formatOk then
    { result := none, errorLog := ["msoffcrypto-tool method failed: Unsupported file format"],
      msoffcryptoAttempted := true, comAttempted := false, tempCreated := false, tempLeft := false }
  else
    match password with
    | some pw =>
      if env.encrypted && pw == env.goodPassword then
        { result := some env.content, errorLog := [], msoffcryptoAttempted := true,
          comAttempted := false, tempCreated := true, tempLeft := false }
      else if env.encrypted then
        { result := none, errorLog := ["msoffcrypto-tool method failed: Key verification failed"],
          msoffcryptoAttempted := true, comAttempted := false, tempCreated := false, tempLeft := false }
      else
        { result := none, errorLog := ["msoffcrypto-tool method failed: Unencrypted document"],
          msoffcryptoAttempted := true, comAttempted := false, tempCreated := false, tempLeft := false }
    | none =>
      { result := none, errorLog := ["msoffcrypto-tool method failed: Cannot find any valid key"],
        msoffcryptoAttempted := true, comAttempted := false, tempCreated := false, tempLeft := false }

/-! The pipeline driver. -/

/-- Observable outcome of one process_excel run: the frame written to
the output file if any, whether an output file exists afterwards, the
status text, and whether the silent branch after the export call (the
implicit else of line 347, reachable only if export_to_excel returned
a non-True value) was taken. -/
structure ProcessResult where
  exported : Option DataFrame
  fileWritten : Bool
  status : String
  silentBranch : Bool
deriving DecidableEq, Repr

/-- Source lines 262-359: process_excel.  Load; on None set the error
status and return (lines 298-302).  Validate; on failure set the error
status and return before any file is written (lines 310-314).
Transform, then export; an exception anywhere is caught by the handler
of lines 355-359, which sets an error status and writes no file. -/
def process_excel (env : FileEnv) (password : Option String) : ProcessResult :=
  match (read_excel_file env password).result with
  | none =>
    { exported := none, fileWritten := false,
      status := "Error - Incorrect password or file cannot be read", silentBranch := false }
  | some df =>
    if (check_required_columns df requiredColumns).1 = false then
      { exported := none, fileWritten := false,
        status := "Error - Missing required columns in Excel file", silentBranch := false }
    else
      match transform df with
      | none =>
        { exported := none, fileWritten := false, status := "Error - KeyError", silentBranch := false }
      | some out =>
        match export_to_excel out stateDropdown contactedViaDropdown notesDropdown completedByDropdown with
        | Except.error e =>
          { exported := none, fileWritten := false, status := "Error - " ++ e, silentBranch := false }
        | Except.ok wb =>
          if wb.ret then
            { exported := some out, fileWritten := true,
              status := "Success - Processed records. File saved to Desktop.", silentBranch := false }
          else
            { exported := some out, fileWritten := true, status := "", silentBranch := true }

/-- Modelled from the spec: the Transformer variant for source exports
that present separate first-name and last-name fields instead of a
combined Insured column.  That variant exists only in other
near-duplicate script versions of this repository, which are not under
src/; the spec requires concatenation with a single-space separator,
first name before last name. -/
def mergeInsuredName (firstName lastName : String) : String :=
  firstName ++ " " ++ lastName

/-! Concrete sample data used by witnesses and counterexamples. -/

def sampleRow (d : Nat) (who : String) : List Cell :=
  [Cell.num d, Cell.str who, Cell.str "Acme", Cell.str "Auto", Cell.str "Active",
   Cell.num 100, Cell.num 110, Cell.num 10]

/-- A valid three-row input in the source schema, rows out of date
order. -/
def sampleDf : DataFrame :=
  { cols := requiredColumns,
    rows := [sampleRow 20240501 "Alice", sampleRow 20240115 "Bob", sampleRow 20240310 "Cara"] }

def emptyDf : DataFrame := { cols := [], rows := [] }

/-- The transform of the sample input. -/
def sampleOut : DataFrame := (transform sampleDf).getD emptyDf

/-- A seventeen-row frame whose Expiration Date keys are all equal
while a second column tags each row with its original position. -/
def tieDf : DataFrame :=
  { cols := ["Expiration Date", "RowTag"],
    rows := (List.range 17).map (fun k => [Cell.num 20240101, Cell.num k]) }

/-- The sample input with the Carrier column removed. -/
def noCarrierDf : DataFrame :=
  { cols := ["Expiration Date", "Insured", "Lines Of Business", "Status",
             "Premium", "Renewal Premium", "Percentage Change"],
    rows := [[Cell.num 20240501, Cell.str "Alice", Cell.str "Auto", Cell.str "Active",
              Cell.num 100, Cell.num 110, Cell.num 10]] }

/-- Loader environment: the input file is absent. -/
def envMissing : FileEnv :=
  { present := false, encrypted := false, goodPassword := "", formatOk := true,
    msoffcryptoInstalled := true, content := emptyDf }

/-- Loader environment: an encrypted file whose passphrase is
secret. -/
def envEncrypted : FileEnv :=
  { present := true, encrypted := true, goodPassword := "secret", formatOk := true,
    msoffcryptoInstalled := true, content := sampleDf }

/-- Loader environment: a present file in an unreadable container
format. -/
def envCorrupt : FileEnv :=
  { present := true, encrypted := false, goodPassword := "", formatOk := false,
    msoffcryptoInstalled := true, content := emptyDf }

/-- Loader environment: an encrypted file, correct passphrase known,
but the msoffcrypto library unavailable, so only the automation bridge
could decrypt it. -/
def envNoLib : FileEnv :=
  { present := true, encrypted := true, goodPassword := "secret", formatOk := true,
    msoffcryptoInstalled := false, content := sampleDf }

/-- Loader environment: a valid unencrypted file whose table is
missing the Carrier column. -/
def envNoCarrier : FileEnv :=
  { present := true, encrypted := false, goodPassword := "", formatOk := true,
    msoffcryptoInstalled := true, content := noCarrierDf }

/-- Loader environment: a valid unencrypted file holding the sample
table. -/
def envSample : FileEnv :=
  { present := true, encrypted := false, goodPassword := "", formatOk := true,
    msoffcryptoInstalled := true, content := sampleDf }

/-- The workbook written for the transformed sample input. -/
def sampleWb : Workbook :=
  (export_to_excel sampleOut stateDropdown contactedViaDropdown notesDropdown completedByDropdown).toOption.getD
    { headers := [], dataRows := [], validations := [], ret := false }

/-! Invariant lemmas: every step of the argsort embedding preserves
the length of the index list and keeps its entries below the bound. -/

theorem setL_length {α : Type} (t : List α) (i : Nat) (v : α) :
    (setL t i v).length = t.length := by
  induction t generalizing i with
  | nil => rfl
  | cons a as ih =>
    cases i with
    | zero => rfl
    | succ k => simp [setL, ih]

theorem setN_length (t : List Nat) (i v : Nat) : (setN t i v).length = t.length :=
  setL_length t i v

theorem mem_setL {α : Type} {t : List α} {i : Nat} {v x : α}
    (hx : x ∈ setL t i v) : x = v ∨ x ∈ t := by
  induction t generalizing i with
  | nil => simp [setL] at hx
  | cons a as ih =>
    cases i with
    | zero =>
      rcases List.mem_cons.mp hx with h | h
      · exact Or.inl h
      · exact Or.inr (List.mem_cons_of_mem _ h)
    | succ k =>
      rcases List.mem_cons.mp hx with h | h
      · exact Or.inr (by simp [h])
      · rcases ih h with h1 | h1
        · exact Or.inl h1
        · exact Or.inr (List.mem_cons_of_mem _ h1)

theorem getN_lt {n : Nat} {t : List Nat} (h : Bnd n t) (hn : 0 < n) (i : Nat) :
    getN t i < n := by
  induction t generalizing i with
  | nil => simpa [getN, List.getD] using hn
  | cons a as ih =>
    cases i with
    | zero => exact h a (List.mem_cons_self a as)
    | succ k => exact ih (fun x hx => h x (List.mem_cons_of_mem _ hx)) k

theorem Bnd_setN {n : Nat} {t : List Nat} {v : Nat} (h : Bnd n t) (hv : v < n)
    (i : Nat) : Bnd n (setN t i v) := by
  intro x hx
  rcases mem_setL hx with rfl | hx2
  · exact hv
  · exact h x hx2

theorem swapN_length (t : List Nat) (i j : Nat) : (swapN t i j).length = t.length := by
  simp [swapN, setN, setL_length]

theorem Bnd_swapN {n : Nat} {t : List Nat} (h : Bnd n t) (hn : 0 < n) (i j : Nat) :
    Bnd n (swapN t i j) :=
  Bnd_setN (Bnd_setN h (getN_lt h hn j) i) (getN_lt h hn i) j

theorem med3Step_length (v t : List Nat) (a b : Nat) :
    (med3Step v t a b).length = t.length := by
  unfold med3Step
  split
  · exact swapN_length t a b
  · rfl

theorem Bnd_med3Step {n : Nat} {t : List Nat} (v : List Nat) (h : Bnd n t) (hn : 0 < n)
    (a b : Nat) : Bnd n (med3Step v t a b) := by
  unfold med3Step
  split
  · exact Bnd_swapN h hn a b
  · exact h

theorem partLoopF_length (v : List Nat) (vp fuel : Nat) :
    ∀ (t : List Nat) (i j : Nat), (partLoopF v vp fuel t i j).1.length = t.length := by
  induction fuel with
  | zero => intro t i j; rfl
  | succ f ih =>
    intro t i j
    simp only [partLoopF]
    split
    · rfl
    · rw [ih, swapN_length]

theorem Bnd_partLoopF {n : Nat} (v : List Nat) (vp fuel : Nat) :
    ∀ {t : List Nat} (i j : Nat), Bnd n t → 0 < n → Bnd n (partLoopF v vp fuel t i j).1 := by
  induction fuel with
  | zero => intro t i j h _; exact h
  | succ f ih =>
    intro t i j h hn
    simp only [partLoopF]
    split
    · exact h
    · exact ih _ _ (Bnd_swapN h hn _ _) hn

theorem partitionSeg_length (v t : List Nat) (pl pr : Nat) :
    (partitionSeg v t pl pr).1.length = t.length := by
  simp only [partitionSeg]
  rw [swapN_length, partLoopF_length, swapN_length, med3Step_length, med3Step_length,
    med3Step_length]

theorem Bnd_partitionSeg {n : Nat} (v : List Nat) {t : List Nat} (h : Bnd n t) (hn : 0 < n)
    (pl pr : Nat) : Bnd n (partitionSeg v t pl pr).1 := by
  simp only [partitionSeg]
  exact Bnd_swapN (Bnd_partLoopF v _ _ _ _
    (Bnd_swapN (Bnd_med3Step v (Bnd_med3Step v (Bnd_med3Step v h hn _ _) hn _ _) hn _ _) hn _ _)
    hn) hn _ _

theorem insShift_length (v : List Nat) (vp pl fuel : Nat) :
    ∀ (t : List Nat) (j : Nat), (insShift v vp pl fuel t j).1.length = t.length := by
  induction fuel with
  | zero => intro t j; rfl
  | succ f ih =>
    intro t j
    simp only [insShift]
    split
    · rw [ih, setN_length]
    · rfl

theorem Bnd_insShift {n : Nat} (v : List Nat) (vp pl fuel : Nat) :
    ∀ {t : List Nat} (j : Nat), Bnd n t → 0 < n → Bnd n (insShift v vp pl fuel t j).1 := by
  induction fuel with
  | zero => intro t j h _; exact h
  | succ f ih =>
    intro t j h hn
    simp only [insShift]
    split
    · exact ih _ (Bnd_setN h (getN_lt h hn _) _) hn
    · exact h

theorem insertionSeg_length (v : List Nat) (pl pr fuel : Nat) :
    ∀ (t : List Nat) (pi : Nat), (insertionSeg v pl pr fuel t pi).length = t.length := by
  induction fuel with
  | zero => intro t pi; rfl
  | succ f ih =>
    intro t pi
    simp only [insertionSeg]
    split
    · rw [ih, setN_length, insShift_length]
    · rfl

theorem Bnd_insertionSeg {n : Nat} (v : List Nat) (pl pr fuel : Nat) :
    ∀ {t : List Nat} (pi : Nat), Bnd n t → 0 < n → Bnd n (insertionSeg v pl pr fuel t pi) := by
  induction fuel with
  | zero => intro t pi h _; exact h
  | succ f ih =>
    intro t pi h hn
    simp only [insertionSeg]
    split
    · exact ih _ (Bnd_setN (Bnd_insShift v _ _ _ _ h hn) (getN_lt h hn _) _) hn
    · exact h

theorem siftLoop_length (v : List Nat) (pl n0 tmp fuel : Nat) :
    ∀ (t : List Nat) (i j : Nat), (siftLoop v pl n0 tmp fuel t i j).1.length = t.length := by
  induction fuel with
  | zero => intro t i j; rfl
  | succ f ih =>
    intro t i j
    simp only [siftLoop]
    repeat' split
    all_goals first
      | rw [ih, setN_length]
      | rfl

theorem Bnd_siftLoop {n : Nat} (v : List Nat) (pl n0 tmp fuel : Nat) :
    ∀ {t : List Nat} (i j : Nat), Bnd n t → 0 < n → Bnd n (siftLoop v pl n0 tmp fuel t i j).1 := by
  induction fuel with
  | zero => intro t i j h _; exact h
  | succ f ih =>
    intro t i j h hn
    simp only [siftLoop]
    repeat' split
    all_goals first
      | exact ih _ _ (Bnd_setN h (getN_lt h hn _) _) hn
      | exact h

theorem heapBuild_length (v : List Nat) (pl n0 fuel : Nat) :
    ∀ (t : List Nat) (l : Nat), (heapBuild v pl n0 fuel t l).length = t.length := by
  induction fuel with
  | zero => intro t l; rfl
  | succ f ih =>
    intro t l
    simp only [heapBuild]
    split
    · rw [ih, setN_length, siftLoop_length]
    · rfl

theorem Bnd_heapBuild {n : Nat} (v : List Nat) (pl n0 fuel : Nat) :
    ∀ {t : List Nat} (l : Nat), Bnd n t → 0 < n → Bnd n (heapBuild v pl n0 fuel t l) := by
  induction fuel with
  | zero => intro t l h _; exact h
  | succ f ih =>
    intro t l h hn
    simp only [heapBuild]
    split
    · exact ih _ (Bnd_setN (Bnd_siftLoop v _ _ _ _ _ _ h hn) (getN_lt h hn _) _) hn
    · exact h

theorem heapExtract_length (v : List Nat) (pl fuel : Nat) :
    ∀ (t : List Nat) (n0 : Nat), (heapExtract v pl fuel t n0).length = t.length := by
  induction fuel with
  | zero => intro t n0; rfl
  | succ f ih =>
    intro t n0
    simp only [heapExtract]
    split
    · rw [ih, setN_length, siftLoop_length, setN_length]
    · rfl

theorem Bnd_heapExtract {n : Nat} (v : List Nat) (pl fuel : Nat) :
    ∀ {t : List Nat} (n0 : Nat), Bnd n t → 0 < n → Bnd n (heapExtract v pl fuel t n0) := by
  induction fuel with
  | zero => intro t n0 h _; exact h
  | succ f ih =>
    intro t n0 h hn
    simp only [heapExtract]
    split
    · exact ih _ (Bnd_setN
        (Bnd_siftLoop v _ _ _ _ _ _ (Bnd_setN h (getN_lt h hn _) _) hn)
        (getN_lt h hn _) _) hn
    · exact h

theorem aheapsortSeg_length (v t : List Nat) (pl n0 : Nat) :
    (aheapsortSeg v t pl n0).length = t.length := by
  unfold aheapsortSeg
  rw [heapExtract_length, heapBuild_length]

theorem Bnd_aheapsortSeg {n : Nat} (v : List Nat) {t : List Nat} (h : Bnd n t) (hn : 0 < n)
    (pl n0 : Nat) : Bnd n (aheapsortSeg v t pl n0) := by
  unfold aheapsortSeg
  exact Bnd_heapExtract v _ _ _ (Bnd_heapBuild v _ _ _ _ h hn) hn

theorem aqsRun_length (v : List Nat) (fuel : Nat) :
    ∀ (check : Bool) (t : List Nat) (pl pr : Nat) (cdepth : Int),
      (aqsRun v fuel check t pl pr cdepth).length = t.length := by
  induction fuel with
  | zero => intro check t pl pr cdepth; rfl
  | succ f ih =>
    intro check t pl pr cdepth
    simp only [aqsRun]
    split
    · exact aheapsortSeg_length v t _ _
    · split
      · split
        · rw [ih, ih, partitionSeg_length]
        · rw [ih, ih, partitionSeg_length]
      · exact insertionSeg_length v _ _ _ t _

theorem Bnd_aqsRun {n : Nat} (v : List Nat) (fuel : Nat) :
    ∀ (check : Bool) {t : List Nat} (pl pr : Nat) (cdepth : Int),
      Bnd n t → 0 < n → Bnd n (aqsRun v fuel check t pl pr cdepth) := by
  induction fuel with
  | zero => intro check t pl pr cdepth h _; exact h
  | succ f ih =>
    intro check t pl pr cdepth h hn
    simp only [aqsRun]
    split
    · exact Bnd_aheapsortSeg v h hn _ _
    · split
      · split
        · exact ih _ _ _ _ (ih _ _ _ _ (Bnd_partitionSeg v h hn _ _) hn) hn
        · exact ih _ _ _ _ (ih _ _ _ _ (Bnd_partitionSeg v h hn _ _) hn) hn
      · exact Bnd_insertionSeg v _ _ _ _ h hn

theorem aargsort_length (keys : List Nat) : (aargsort keys).length = keys.length := by
  unfold aargsort
  split
  · simp [*]
  · rw [aqsRun_length, List.length_range]

theorem aargsort_bnd (keys : List Nat) : Bnd keys.length (aargsort keys) := by
  unfold aargsort
  split
  · intro x hx; simp at hx
  · have hn : 0 < keys.length := Nat.pos_of_ne_zero (by assumption)
    exact Bnd_aqsRun keys _ _ _ _ _ (fun x hx => List.mem_range.mp hx) hn

theorem getD_mem {α : Type} (l : List α) (i : Nat) (d : α) (h : i < l.length) :
    l.getD i d ∈ l := by
  induction l generalizing i with
  | nil => simp at h
  | cons a as ih =>
    cases i with
    | zero => exact List.mem_cons_self a as
    | succ k => exact List.mem_cons_of_mem _ (ih k (by simpa using h))

/-! Lemmas about the transform steps. -/

theorem sortByCol_some {df df' : DataFrame} {c : String}
    (h : sortByCol df c = some df') :
    df'.cols = df.cols ∧ df'.rows.length = df.rows.length ∧
      ∀ r ∈ df'.rows, r ∈ df.rows := by
  unfold sortByCol at h
  cases hj : colIdx df c with
  | none => rw [hj] at h; exact absurd h (by simp)
  | some j =>
    rw [hj] at h
    injection h with h
    subst h
    refine ⟨rfl, ?_, ?_⟩
    · simp [aargsort_length]
    · intro r hr
      simp only [List.mem_map] at hr
      obtain ⟨i, hi, rfl⟩ := hr
      have hb := aargsort_bnd (df.rows.map (fun r => cellKey (r.getD j (Cell.str "")))) i hi
      rw [List.length_map] at hb
      exact getD_mem _ _ _ hb

theorem selectCols_some {df d : DataFrame} {names : List String}
    (h : selectCols df names = some d) :
    d.cols = names ∧ d.rows.length = df.rows.length ∧
      ∀ r ∈ d.rows, r.length = names.length := by
  unfold selectCols at h
  split at h
  · injection h with h
    subst h
    refine ⟨rfl, by simp, ?_⟩
    intro r hr
    simp only [List.mem_map] at hr
    obtain ⟨r0, _, rfl⟩ := hr
    simp
  · exact absurd h (by simp)

theorem addCol_of_not_contains {df : DataFrame} {name : String} {v : Cell}
    (h : df.cols.contains name = false) :
    (addCol df name v).cols = df.cols ++ [name] ∧
      (addCol df name v).rows = df.rows.map (fun r => r ++ [v]) := by
  unfold addCol
  rw [h]
  exact ⟨rfl, rfl⟩

theorem transform_some {df df' : DataFrame} (h : transform df = some df') :
    df'.cols = canonicalColumns ++ workflowColumns ∧
    df'.rows.length = df.rows.length ∧
    ∀ row ∈ df'.rows, ∃ r0, r0.length = 8 ∧
      row = r0 ++ [Cell.str "", Cell.str "", Cell.str "", Cell.str ""] := by
  unfold transform at h
  cases hsel : selectCols (renameInsured df) canonicalColumns with
  | none => rw [hsel] at h; exact absurd h (by simp)
  | some df2 =>
    rw [hsel] at h
    obtain ⟨hc2, hl2, hr2⟩ := selectCols_some hsel
    have h1 := @addCol_of_not_contains df2 "State" (Cell.str "") (by rw [hc2]; decide)
    have h1c : (addCol df2 "State" (Cell.str "")).cols = canonicalColumns ++ ["State"] := by
      rw [h1.1, hc2]
    have h2 := @addCol_of_not_contains (addCol df2 "State" (Cell.str ""))
      "Contacted VIA" (Cell.str "") (by rw [h1c]; decide)
    have h2c : (addCol (addCol df2 "State" (Cell.str "")) "Contacted VIA" (Cell.str "")).cols
        = (canonicalColumns ++ ["State"]) ++ ["Contacted VIA"] := by
      rw [h2.1, h1c]
    have h3 := @addCol_of_not_contains
      (addCol (addCol df2 "State" (Cell.str "")) "Contacted VIA" (Cell.str ""))
      "Notes Filed" (Cell.str "") (by rw [h2c]; decide)
    have h3c : (addCol (addCol (addCol df2 "State" (Cell.str "")) "Contacted VIA" (Cell.str ""))
        "Notes Filed" (Cell.str "")).cols
        = ((canonicalColumns ++ ["State"]) ++ ["Contacted VIA"]) ++ ["Notes Filed"] := by
      rw [h3.1, h2c]
    have h4 := @addCol_of_not_contains
      (addCol (addCol (addCol df2 "State" (Cell.str "")) "Contacted VIA" (Cell.str ""))
        "Notes Filed" (Cell.str ""))
      "Completed By" (Cell.str "") (by rw [h3c]; decide)
    obtain ⟨hsc, hsl, hsm⟩ := sortByCol_some h
    refine ⟨?_, ?_, ?_⟩
    · rw [hsc, h4.1, h3c]
      decide
    · rw [hsl, h4.2, h3.2, h2.2, h1.2]
      simp [hl2, renameInsured]
    · intro row hrow
      have hm := hsm row hrow
      rw [h4.2] at hm
      simp only [List.mem_map] at hm
      obtain ⟨r3, hr3, rfl⟩ := hm
      rw [h3.2] at hr3
      simp only [List.mem_map] at hr3
      obtain ⟨r2, hr2m, rfl⟩ := hr3
      rw [h2.2] at hr2m
      simp only [List.mem_map] at hr2m
      obtain ⟨r1, hr1m, rfl⟩ := hr2m
      rw [h1.2] at hr1m
      simp only [List.mem_map] at hr1m
      obtain ⟨r0, hr0m, rfl⟩ := hr1m
      refine ⟨r0, ?_, by simp⟩
      have := hr2 r0 hr0m
      simpa using this

theorem export_ok_ret {df : DataFrame} {s c n d : List String} {wb : Workbook}
    (h : export_to_excel df s c n d = Except.ok wb) : wb.ret = true := by
  unfold export_to_excel at h
  repeat' split at h
  all_goals first
    | (injection h with h; rw [← h])
    | exact Except.noConfusion h

theorem indexOf_map_rename {cols : List String} (h2 : "Insured Name" ∉ cols) :
    (cols.map (fun c => if c = "Insured" then "Insured Name" else c)).indexOf "Insured Name" =
      cols.indexOf "Insured" := by
  induction cols with
  | nil => rfl
  | cons a as ih =>
    have h2tail : "Insured Name" ∉ as := fun hm => h2 (List.mem_cons_of_mem _ hm)
    have h2head : a ≠ "Insured Name" := fun e => h2 (by simp [e])
    by_cases ha : a = "Insured"
    · subst ha
      simp [List.indexOf_cons_self]
    · simp only [List.map_cons, if_neg ha]
      rw [List.indexOf_cons_ne _ h2head, List.indexOf_cons_ne _ ha, ih h2tail]

theorem process_silent_false (env : FileEnv) (pw : Option String) :
    (process_excel env pw).silentBranch = false := by
  unfold process_excel
  cases hr : (read_excel_file env pw).result with
  | none => rfl
  | some df =>
    dsimp only
    split
    · rfl
    · cases ht : transform df with
      | none => rfl
      | some out =>
        dsimp only
        cases hexp : export_to_excel out stateDropdown contactedViaDropdown notesDropdown
            completedByDropdown with
        | error e => rfl
        | ok wb =>
          dsimp only
          rw [export_ok_ret hexp]
          rfl

/-! Claim theorems. -/

/-- Claim C1: the spec requires the sort by Expiration Date to be
stable, rows with equal dates keeping their original relative order.
Line 340 calls sort_values with the default kind, quicksort, which is
not stable: on seventeen rows whose Expiration Date values are all
equal, the computed argsort permutation is not the identity, so equal
keyed rows are reordered even though the row count is preserved. -/
theorem C1_sort_unstable_on_equal_dates :
    aargsort (List.replicate 17 20240101) ≠ List.range 17 ∧
    (sortByCol tieDf "Expiration Date").map DataFrame.rows ≠ some tieDf.rows ∧
    (sortByCol tieDf "Expiration Date").map (fun d => d.rows.length) = some tieDf.rows.length := by
  refine ⟨by decide, by decide, by decide⟩

/-- Claim C2: check_required_columns returns success exactly when
every required column is present, and the reported missing list holds
exactly the required columns absent from the frame; on an input
lacking only Carrier it reports failure with exactly Carrier
missing. -/
theorem C2_validator_reports_missing :
    (∀ (df : DataFrame) (req : List String),
      ((check_required_columns df req).1 = true ↔ ∀ c ∈ req, c ∈ df.cols) ∧
      (∀ c, c ∈ (check_required_columns df req).2 ↔ (c ∈ req ∧ c ∉ df.cols))) ∧
    check_required_columns noCarrierDf requiredColumns = (false, ["Carrier"]) := by
  constructor
  · intro df req
    constructor
    · simp [check_required_columns, List.isEmpty_iff, List.filter_eq_nil_iff]
    · intro c
      simp [check_required_columns, List.mem_filter]
  · decide

/-- Claim C3: with a combined Insured column present (and no Insured
Name column already there), the rename of line 322 yields an Insured
Name column at the former Insured position with all cell values
untouched; for source variants with separate first and last name
fields, present only in script versions outside src/, the
spec-modelled merge concatenates first then last with one space. -/
theorem C3_insured_name (df : DataFrame)
    (h1 : "Insured" ∈ df.cols) (h2 : "Insured Name" ∉ df.cols) :
    "Insured Name" ∈ (renameInsured df).cols ∧
    (renameInsured df).cols.indexOf "Insured Name" = df.cols.indexOf "Insured" ∧
    (renameInsured df).rows = df.rows ∧
    ∀ firstName lastName, mergeInsuredName firstName lastName = firstName ++ " " ++ lastName := by
  refine ⟨?_, indexOf_map_rename h2, rfl, fun firstName lastName => rfl⟩
  exact List.mem_map.mpr ⟨"Insured", h1, by simp⟩

/-- Witness for C3 at the sample input. -/
theorem C3_insured_name_witness :
    ("Insured" ∈ sampleDf.cols) ∧ ¬ ("Insured Name" ∈ sampleDf.cols) ∧
    (renameInsured sampleDf).cols.indexOf "Insured Name" = sampleDf.cols.indexOf "Insured" :=
  ⟨by decide, by decide, (C3_insured_name sampleDf (by decide) (by decide)).2.1⟩

/-- Claim C4: the three loader failure conditions, missing file, bad
passphrase and corrupt format, each return the single None signal at
the caller boundary, while the logged cause strings of the three runs
are pairwise distinct, keeping the outcomes internally
distinguishable. -/
theorem C4_loader_failures_distinguishable :
    (read_excel_file envMissing none).result = none ∧
    (read_excel_file envEncrypted (some "wrong")).result = none ∧
    (read_excel_file envCorrupt none).result = none ∧
    (read_excel_file envMissing none).errorLog ≠ (read_excel_file envEncrypted (some "wrong")).errorLog ∧
    (read_excel_file envMissing none).errorLog ≠ (read_excel_file envCorrupt none).errorLog ∧
    (read_excel_file envEncrypted (some "wrong")).errorLog ≠ (read_excel_file envCorrupt none).errorLog := by
  decide

/-- Claim C5 counterexample: an encrypted file with the correct
passphrase supplied but the in-process library unavailable.  The
library mechanism is attempted and fails and the load returns None,
yet the automation bridge, which would have succeeded on this input,
is never attempted: the claimed second fallback mechanism does not
run. -/
theorem C5_counterexample_no_bridge_fallback :
    (read_excel_file envNoLib (some "secret")).result = none ∧
    (read_excel_file envNoLib (some "secret")).msoffcryptoAttempted = true ∧
    (read_excel_file envNoLib (some "secret")).comAttempted = false ∧
    open_protected_excel envNoLib (some "secret") = true := by
  decide

/-- Claim C5 amended: whenever a passphrase is supplied or the direct
read fails, the loader attempts decryption through the in-process
msoffcrypto mechanism only; the automation bridge is never invoked on
any input. -/
theorem C5_amended_single_mechanism (env : FileEnv) (pw : Option String) :
    (read_excel_file env pw).comAttempted = false ∧
    (read_excel_file env pw).msoffcryptoAttempted = (pw.isSome || !directReadOk env) := by
  unfold read_excel_file
  cases pw <;> cases hd : directReadOk env <;> simp [hd] <;> repeat' split <;> simp_all

/-- Witness for the amended C5 at the concrete environment of the
counterexample. -/
theorem C5_amended_single_mechanism_witness :
    (read_excel_file envNoLib (some "secret")).comAttempted = false ∧
    (read_excel_file envNoLib (some "secret")).msoffcryptoAttempted
      = ((some "secret").isSome || !directReadOk envNoLib) :=
  C5_amended_single_mechanism envNoLib (some "secret")

/-- Claim C6: every transformed frame carries the four workflow
columns appended after the canonical columns in the fixed order State,
Contacted VIA, Notes Filed, Completed By; every row ends with four
empty-string cells in those positions; and the exporter writes exactly
those headers and data rows into the workbook. -/
theorem C6_workflow_columns_empty (df df' : DataFrame) (h : transform df = some df') :
    df'.cols = canonicalColumns ++ workflowColumns ∧
    (∀ row ∈ df'.rows, ∃ r0, r0.length = 8 ∧
      row = r0 ++ [Cell.str "", Cell.str "", Cell.str "", Cell.str ""]) ∧
    (∀ wb, export_to_excel df' stateDropdown contactedViaDropdown notesDropdown completedByDropdown
        = Except.ok wb → wb.headers = df'.cols ∧ wb.dataRows = df'.rows) := by
  obtain ⟨hc, _, hshape⟩ := transform_some h
  refine ⟨hc, hshape, ?_⟩
  intro wb hwb
  unfold export_to_excel at hwb
  repeat' split at hwb
  all_goals first
    | (injection hwb with hwb; rw [← hwb]; exact ⟨rfl, rfl⟩)
    | exact Except.noConfusion hwb

/-- Witness for C6 at the sample input. -/
theorem C6_workflow_columns_empty_witness :
    transform sampleDf = some sampleOut ∧
    sampleOut.cols = canonicalColumns ++ workflowColumns :=
  ⟨by decide, (C6_workflow_columns_empty sampleDf sampleOut (by decide)).1⟩

/-- Claim C7: the transform pipeline, rename then selection then
workflow-column append then sort, preserves the number of rows. -/
theorem C7_transform_preserves_row_count (df df' : DataFrame)
    (h : transform df = some df') : df'.rows.length = df.rows.length :=
  (transform_some h).2.1

/-- Witness for C7 at the sample input. -/
theorem C7_transform_preserves_row_count_witness :
    transform sampleDf = some sampleOut ∧ sampleOut.rows.length = sampleDf.rows.length :=
  ⟨by decide, C7_transform_preserves_row_count sampleDf sampleOut (by decide)⟩

/-- Claim C8: when the loaded frame fails validation, process_excel
sets the missing-columns error status and returns before the exporter
runs: nothing is exported and no output file is written. -/
theorem C8_validation_failure_halts (env : FileEnv) (pw : Option String) (df0 : DataFrame)
    (h1 : (read_excel_file env pw).result = some df0)
    (h2 : (check_required_columns df0 requiredColumns).1 = false) :
    (process_excel env pw).fileWritten = false ∧
    (process_excel env pw).exported = none ∧
    (process_excel env pw).status = "Error - Missing required columns in Excel file" := by
  unfold process_excel
  rw [h1]
  dsimp only
  rw [if_pos h2]
  exact ⟨rfl, rfl, rfl⟩

/-- Witness for C8 at the concrete no-Carrier input. -/
theorem C8_validation_failure_halts_witness :
    (read_excel_file envNoCarrier none).result = some noCarrierDf ∧
    (check_required_columns noCarrierDf requiredColumns).1 = false ∧
    (process_excel envNoCarrier none).fileWritten = false :=
  ⟨by decide, by decide,
    (C8_validation_failure_halts envNoCarrier none noCarrierDf (by decide) (by decide)).1⟩

/-- Claim C9: no loader input leaves a temporary decrypted file behind
after the call returns; the finally block removes it on every exit
path. -/
theorem C9_no_temp_file_left (env : FileEnv) (pw : Option String) :
    (read_excel_file env pw).tempLeft = false := by
  unfold read_excel_file
  repeat' split
  all_goals rfl

/-- Witness for C9 on the successful decryption path, where a
temporary file is actually created and then removed. -/
theorem C9_no_temp_file_left_witness :
    (read_excel_file envEncrypted (some "secret")).tempCreated = true ∧
    (read_excel_file envEncrypted (some "secret")).tempLeft = false :=
  ⟨by decide, C9_no_temp_file_left envEncrypted (some "secret")⟩

/-- Claim C10: whenever export_to_excel returns normally it returns
True, for every frame and dropdown configuration, so the silent
false-branch of the caller after the export call is unreachable on
every pipeline input. -/
theorem C10_export_returns_true (df : DataFrame) (s c n d : List String) (wb : Workbook)
    (h : export_to_excel df s c n d = Except.ok wb) :
    wb.ret = true ∧ ∀ env pw, (process_excel env pw).silentBranch = false :=
  ⟨export_ok_ret h, fun env pw => process_silent_false env pw⟩

/-- Witness for C10 at the transformed sample frame. -/
theorem C10_export_returns_true_witness :
    export_to_excel sampleOut stateDropdown contactedViaDropdown notesDropdown completedByDropdown
      = Except.ok sampleWb ∧ sampleWb.ret = true :=
  ⟨by rfl, (C10_export_returns_true sampleOut stateDropdown contactedViaDropdown notesDropdown
    completedByDropdown sampleWb (by rfl)).1⟩

end QuadstateRenewals
